import Mathlib

/-!
Verification of the authentication controller (`src/controllers/auth.js`) of
NodeApiTemplate against its natural-language specification.

The controller is shallowly embedded: JavaScript runtime values are modelled by
the inductive type `Val`; property access on `undefined`/`null` raises a
`TypeError`, modelled by `Except Val`; calls to external collaborators (the
DynamoDB user store, the provider token endpoints) are parameters of an `Env`
record, and every external call a run performs is recorded in a trace of
`ExtCall` values. `jwt.sign` is modelled by the `Val.vtoken` constructor, which
records the signed payload, the secret, the `expiresIn` window and the
issued-at instant: a real HS256 JWT string is a deterministic, injective
function of exactly these data, so equality of `Val.vtoken` values models
byte-identity of token strings, and distinct issue instants yield distinct
token strings. The telemetry side effect of `handleError` (fire-and-forget
logging) is unobservable to callers and is not modelled.
-/

namespace NodeApiAuth

/-- A JavaScript runtime value. `vobj` is an object as an ordered association
list of own properties. `vtoken` is a JWT string produced by `jwt.sign`,
determined by payload, secret, expiresIn and issued-at. -/
inductive Val where
  | undefined : Val
  | vnull : Val
  | vbool : Bool → Val
  | vnum : Int → Val
  | vstr : String → Val
  | vobj : List (String × Val) → Val
  | vtoken : Val → String → Int → Int → Val
  deriving Repr

/-- `typeof v` as in JavaScript. A signed token is a string. -/
def jsTypeof : Val → String
  | .undefined => "undefined"
  | .vnull => "object"
  | .vbool _ => "boolean"
  | .vnum _ => "number"
  | .vstr _ => "string"
  | .vobj _ => "object"
  | .vtoken _ _ _ _ => "string"

/-- JavaScript truthiness. -/
def truthy : Val → Bool
  | .undefined => false
  | .vnull => false
  | .vbool b => b
  | .vnum n => n != 0
  | .vstr s => s != ""
  | .vobj _ => true
  | .vtoken _ _ _ _ => true

/-- The object a thrown `TypeError` denotes. -/
def typeError (msg : String) : Val :=
  .vobj [("name", .vstr "TypeError"), ("message", .vstr msg)]

/-- Property read on a receiver that is known not to be `undefined`/`null`
(total: primitives have none of the properties this controller reads, hence
`undefined`). -/
def propOf : Val → String → Val
  | .vobj fs, k => (fs.lookup k).getD .undefined
  | _, _ => .undefined

/-- Property access `v.k` with full JavaScript semantics: throws a `TypeError`
when the receiver is `undefined` or `null`. -/
def getProp : Val → String → Except Val Val
  | .undefined, k => .error (typeError ("Cannot read properties of undefined (reading " ++ k ++ ")"))
  | .vnull, k => .error (typeError ("Cannot read properties of null (reading " ++ k ++ ")"))
  | v, k => .ok (propOf v k)

/-- ASCII-faithful model of `String.prototype.toLowerCase`. -/
def lowerStr (s : String) : String :=
  ⟨s.data.map Char.toLower⟩

/-- `v.toLowerCase()`: succeeds only on strings; on `undefined`/`null` the
member access throws, on other values the call throws (`not a function`).
Signed-token strings are opaque, so lowercasing one is modelled as an error;
no modelled flow lowercases a token. -/
def jsToLowerCase : Val → Except Val Val
  | .vstr s => .ok (.vstr (lowerStr s))
  | .undefined => .error (typeError "Cannot read properties of undefined (reading toLowerCase)")
  | .vnull => .error (typeError "Cannot read properties of null (reading toLowerCase)")
  | _ => .error (typeError "v.toLowerCase is not a function")

/-- `String(v)` / `v.toString()`, total model; only ever applied where the
receiver is an object or a checked string in the embedded flows. -/
def jsToStringT : Val → String
  | .undefined => "undefined"
  | .vnull => "null"
  | .vbool b => cond b "true" "false"
  | .vnum n => toString n
  | .vstr s => s
  | .vobj _ => "[object Object]"
  | .vtoken _ _ _ _ => "<signed-token>"

/-- `JWT_VALID_SECONDS` from line 1 of the controller. -/
def JWT_VALID_SECONDS : Int := 14 * 24 * 60 * 60

/-- `ONE_HOUR` from line 2 of the controller (declared but unused there). -/
def ONE_HOUR : Int := 60 * 60

/-- One call to an external collaborator, recorded in execution order.
`getUserCall` is `DynamoDB.users.getUser(key, password)` (a read);
`putUserCall` is the store interface write operation, present so that
read-onlyness of the resolver is expressible, and never emitted by any
embedded function; `httpPost` is `axios.post(url, body)`. -/
inductive ExtCall where
  | getUserCall : Val → Val → ExtCall
  | putUserCall : Val → Val → ExtCall
  | httpPost : String → String → ExtCall
  deriving Repr

/-- The external collaborators and ambient configuration a request runs
against: the user store lookup (may reject with a thrown value), the HTTP
client for the two provider token endpoints, `jwt.decode` of a provider id
token, the environment secrets, and the current instant used as the issued-at
of a freshly signed token. -/
structure Env where
  getUser : Val → Val → Except Val Val
  http : String → String → Except Val Val
  decode : Val → Val
  googleSecret : String
  azureClientId : String
  azureClientSecret : String
  jwtSecret : String
  now : Int

/-- The outcome of an embedded controller function: either a normally
returned value (`Except.ok`, an AuthResult or a ReportableError object) or a
propagated exception (`Except.error`), paired with the trace of external
calls made, in order. -/
abbrev Outcome := Except Val Val × List ExtCall

/-- `handleError` (lines 157-171): the Error Translator. Logs (unobservable,
not modelled) and returns the uniform error envelope. The nested
provider-payload branch is taken exactly when `error && error.response &&
error.response.data` is truthy, mirroring the short-circuit `if` of the
source; `||` on line 162 returns its left operand when truthy. -/
def handleError (error : Val) (ty : String) : Val :=
  if truthy error && truthy (propOf error "response")
      && truthy (propOf (propOf error "response") "data") then
    let data := propOf (propOf error "response") "data"
    .vobj [("error", propOf data "error"),
           ("message",
             if truthy (propOf data "error_description") then propOf data "error_description"
             else .vstr (jsToStringT error)),
           ("type", .vstr ty)]
  else
    .vobj [("error", error), ("type", .vstr ty)]

/-- `authenticateUser` (lines 127-151): the Session Resolver. Destructures
`userEmail, password, customerId, previousJwt, redirectUrl` from `options`
(note: the callers store the header token under the key `jwt`, so the
destructured `previousJwt` is the value of the key `previousJwt`, which no
caller sets); looks the user up by lowercased email inside `try/catch`
(so a `TypeError` from `toLowerCase` on a non-string email is also caught);
then either reuses a truthy `previousJwt` or signs a fresh token; the
accesses `user.email` / `user.customer_id` happen outside the `try` and only
on the signing branch. -/
def authenticateUser (env : Env) (options : Val) : Outcome :=
  match options with
  | .undefined => (.error (typeError "Cannot destructure property userEmail of undefined"), [])
  | .vnull => (.error (typeError "Cannot destructure property userEmail of null"), [])
  | _ =>
    let userEmail := propOf options "userEmail"
    let password := propOf options "password"
    let customerId := propOf options "customerId"
    let previousJwt := propOf options "previousJwt"
    let redirectUrl := propOf options "redirectUrl"
    match jsToLowerCase userEmail with
    | .error e => (.ok (handleError e "authenticateUser"), [])
    | .ok key =>
      match env.getUser key password with
      | .error e => (.ok (handleError e "authenticateUser"), [.getUserCall key password])
      | .ok user =>
        if truthy previousJwt then
          (.ok (.vobj [("jwt", previousJwt), ("serial", customerId),
                       ("user", user), ("redirectUrl", redirectUrl)]),
           [.getUserCall key password])
        else
          match getProp user "email" with
          | .error e => (.error e, [.getUserCall key password])
          | .ok uEmail =>
            match getProp user "customer_id" with
            | .error e => (.error e, [.getUserCall key password])
            | .ok uCid =>
              let newJWT := Val.vtoken
                (.vobj [("data", .vobj [("cId", customerId), ("uEmail", uEmail),
                                        ("u_cId", uCid)])])
                env.jwtSecret JWT_VALID_SECONDS env.now
              (.ok (.vobj [("jwt", newJWT), ("serial", customerId),
                           ("user", user), ("redirectUrl", redirectUrl)]),
               [.getUserCall key password])

/-- `authChallenge` (lines 11-27): the username/password entry point. Field
validation in source order, then options
`{userEmail: params.username, password: params.password,
jwt: request.normalizedHeaders.jwt}`. -/
def authChallenge (env : Env) (request : Val) : Outcome :=
  if jsTypeof request = "undefined" then
    (.ok (handleError (.vstr "request must be defined") "bad params"), [])
  else
    match getProp request "body" with
    | .error e => (.error e, [])
    | .ok body =>
      if jsTypeof body != "object" || !truthy body then
        (.ok (handleError (.vstr "jsonBody required") "bad params"), [])
      else
        if jsTypeof (propOf body "username") = "undefined" then
          (.ok (handleError (.vstr "username required") "bad params"), [])
        else if jsTypeof (propOf body "username") != "string" then
          (.ok (handleError (.vstr "username must be a string") "bad params"), [])
        else if jsTypeof (propOf body "password") = "undefined" then
          (.ok (handleError (.vstr "password required") "bad params"), [])
        else if jsTypeof (propOf body "password") != "string" then
          (.ok (handleError (.vstr "password must be a string") "bad params"), [])
        else
          match getProp request "normalizedHeaders" with
          | .error e => (.error e, [])
          | .ok nh =>
            match getProp nh "jwt" with
            | .error e => (.error e, [])
            | .ok headerJwt =>
              authenticateUser env
                (.vobj [("userEmail", propOf body "username"),
                        ("password", propOf body "password"),
                        ("jwt", headerJwt)])

/-- The options object `jwtCheck` builds (lines 34-38), with the property
accesses of the object literal evaluated in source order; any access on
`undefined`/`null` throws. -/
def jwtCheckOptions (request : Val) : Except Val Val :=
  match getProp request "jwtPayload" with
  | .error e => .error e
  | .ok payload =>
    match getProp payload "data" with
    | .error e => .error e
    | .ok d =>
      match getProp d "uEmail" with
      | .error e => .error e
      | .ok uEmail =>
        match getProp d "cId" with
        | .error e => .error e
        | .ok cId =>
          match getProp request "normalizedHeaders" with
          | .error e => .error e
          | .ok nh =>
            match getProp nh "jwt" with
            | .error e => .error e
            | .ok headerJwt =>
              .ok (.vobj [("userEmail", uEmail), ("customerId", cId), ("jwt", headerJwt)])

/-- `jwtCheck` (lines 33-41): the recheck entry point. No validation of its
own; builds options from the pre-verified payload and delegates. -/
def jwtCheck (env : Env) (request : Val) : Outcome :=
  match jwtCheckOptions request with
  | .error e => (.error e, [])
  | .ok opts => authenticateUser env opts

/-- The form-encoded body of the Google token-exchange POST (lines 51-57);
`redirectUrl` and `code` are already checked to be strings when it is built. -/
def googleParams (env : Env) (redirectUrl code : Val) : String :=
  "client_id=250992307284-m88p8nub2ormiak916etcu4ke3o850it.apps.googleusercontent.com"
    ++ "&client_secret=" ++ env.googleSecret
    ++ "&redirect_uri=" ++ jsToStringT redirectUrl
    ++ "&grant_type=authorization_code"
    ++ "&code=" ++ jsToStringT code

/-- The Google token endpoint URL (line 62). -/
def googleTokenUrl : String := "https://accounts.google.com/o/oauth2/token"

/-- `googleOauthCallback` (lines 47-78): validates `code` and `redirect_url`,
exchanges the code (failure handled as `googleOauthResponse`), decodes the
returned id token and resolves the user by its `email` claim. The accesses
`googleResponse.data.id_token` and `decodedIdToken.email` are outside any
`try`, so they throw on missing structure. -/
def googleOauthCallback (env : Env) (request : Val) : Outcome :=
  if jsTypeof request = "undefined" then
    (.ok (handleError (.vstr "request must be defined") "bad params"), [])
  else
    match getProp request "body" with
    | .error e => (.error e, [])
    | .ok body =>
      match getProp body "code" with
      | .error e => (.error e, [])
      | .ok code =>
        if jsTypeof code != "string" then
          (.ok (handleError (.vstr "code must be a string") "bad params"), [])
        else
          match getProp body "redirect_url" with
          | .error e => (.error e, [])
          | .ok redirectUrl =>
            if jsTypeof redirectUrl != "string" then
              (.ok (handleError (.vstr "redirect_url must be a string") "bad params"), [])
            else
              match env.http googleTokenUrl (googleParams env redirectUrl code) with
              | .error e => (.ok (handleError e "googleOauthResponse"),
                  [.httpPost googleTokenUrl (googleParams env redirectUrl code)])
              | .ok resp =>
                match getProp resp "data" with
                | .error e => (.error e,
                    [.httpPost googleTokenUrl (googleParams env redirectUrl code)])
                | .ok d =>
                  match getProp d "id_token" with
                  | .error e => (.error e,
                      [.httpPost googleTokenUrl (googleParams env redirectUrl code)])
                  | .ok idToken =>
                    match getProp (env.decode idToken) "email" with
                    | .error e => (.error e,
                        [.httpPost googleTokenUrl (googleParams env redirectUrl code)])
                    | .ok email =>
                      ((authenticateUser env (.vobj [("userEmail", email)])).1,
                       ExtCall.httpPost googleTokenUrl (googleParams env redirectUrl code)
                         :: (authenticateUser env (.vobj [("userEmail", email)])).2)

/-- The form-encoded body of the Azure token-exchange POST (lines 88-95). -/
def azureParams (env : Env) (redirectUrl code : Val) : String :=
  "client_id=" ++ env.azureClientId
    ++ "&client_secret=" ++ env.azureClientSecret
    ++ "&resource=https://graph.windows.net/"
    ++ "&redirect_uri=" ++ jsToStringT redirectUrl
    ++ "&grant_type=authorization_code"
    ++ "&code=" ++ jsToStringT code

/-- The Azure token endpoint URL (line 100). -/
def azureTokenUrl : String := "https://login.microsoftonline.com/common/oauth2/token"

/-- `azureOauthCallback` (lines 84-116): as the Google path, with the Azure
endpoint, the `azureOauthResponse` error tag and the `upn` claim as email. -/
def azureOauthCallback (env : Env) (request : Val) : Outcome :=
  if jsTypeof request = "undefined" then
    (.ok (handleError (.vstr "request must be defined") "bad params"), [])
  else
    match getProp request "body" with
    | .error e => (.error e, [])
    | .ok body =>
      match getProp body "code" with
      | .error e => (.error e, [])
      | .ok code =>
        if jsTypeof code != "string" then
          (.ok (handleError (.vstr "code must be a string") "bad params"), [])
        else
          match getProp body "redirect_url" with
          | .error e => (.error e, [])
          | .ok redirectUrl =>
            if jsTypeof redirectUrl != "string" then
              (.ok (handleError (.vstr "redirect_url must be a string") "bad params"), [])
            else
              match env.http azureTokenUrl (azureParams env redirectUrl code) with
              | .error e => (.ok (handleError e "azureOauthResponse"),
                  [.httpPost azureTokenUrl (azureParams env redirectUrl code)])
              | .ok resp =>
                match getProp resp "data" with
                | .error e => (.error e,
                    [.httpPost azureTokenUrl (azureParams env redirectUrl code)])
                | .ok d =>
                  match getProp d "id_token" with
                  | .error e => (.error e,
                      [.httpPost azureTokenUrl (azureParams env redirectUrl code)])
                  | .ok idToken =>
                    match getProp (env.decode idToken) "upn" with
                    | .error e => (.error e,
                        [.httpPost azureTokenUrl (azureParams env redirectUrl code)])
                    | .ok email =>
                      ((authenticateUser env (.vobj [("userEmail", email)])).1,
                       ExtCall.httpPost azureTokenUrl (azureParams env redirectUrl code)
                         :: (authenticateUser env (.vobj [("userEmail", email)])).2)

/-- The instant a signed token expires: issued-at plus its `expiresIn`
window. `none` for values that are not tokens minted by `jwt.sign`. -/
def tokenExpiry : Val → Option Int
  | .vtoken _ _ expiresIn iat => some (iat + expiresIn)
  | _ => none

/-- The `jwt` field of a normally returned result (the session token of an
AuthResult), `undef` when the run threw. -/
def resultJwt : Outcome → Val
  | (.ok v, _) => propOf v "jwt"
  | (.error _, _) => .undefined

/-- Whether an external call is a user-store read. -/
def isGetUserCall : ExtCall → Bool
  | .getUserCall _ _ => true
  | _ => false

/-- Whether an external call is an HTTP POST to a provider token endpoint. -/
def isHttpPost : ExtCall → Bool
  | .httpPost _ _ => true
  | _ => false

/-- The keys with which a trace queried the user store, in order. -/
def storeQueryKeys (t : List ExtCall) : List Val :=
  t.filterMap fun c => match c with
    | .getUserCall k _ => some k
    | _ => none

/-- The user store state as an association of keys to records. -/
abbrev StoreState := List (Val × Val)

/-- How one external call acts on the store state: reads and HTTP calls leave
it unchanged, the (never emitted) write prepends a binding. -/
def applyCall (s : StoreState) : ExtCall → StoreState
  | .getUserCall _ _ => s
  | .putUserCall k v => (k, v) :: s
  | .httpPost _ _ => s

/-- The store state after a trace of external calls has acted on `s`. -/
def runStoreCalls (s : StoreState) (t : List ExtCall) : StoreState :=
  t.foldl applyCall s

/-- Two strings differ only in letter case: their characters agree after
lowercasing, position by position. -/
def caseEquiv (a b : String) : Prop :=
  a.data.map Char.toLower = b.data.map Char.toLower

instance (a b : String) : Decidable (caseEquiv a b) := by
  unfold caseEquiv
  infer_instance

/-- Whether an object value has `k` among its own keys (present, whatever the
value, `undefined` included). -/
def hasOwnKey : Val → String → Bool
  | .vobj fs, k => (fs.lookup k).isSome
  | _, _ => false

/-- The Error Translator as claim C6 words it: the nested-payload branch is
taken whenever `error.response.data` is PRESENT (the key path exists),
independent of the truthiness of the `data` value. Stated from the claim, to
be compared with `handleError`, which is stated from the source. -/
def handleErrorClaimed (error : Val) (ty : String) : Val :=
  if hasOwnKey error "response" && hasOwnKey (propOf error "response") "data" then
    let data := propOf (propOf error "response") "data"
    .vobj [("error", propOf data "error"),
           ("message",
             if truthy (propOf data "error_description") then propOf data "error_description"
             else .vstr (jsToStringT error)),
           ("type", .vstr ty)]
  else
    .vobj [("error", error), ("type", .vstr ty)]

/-- The nested provider-response payload of an error as the amended claim C6
words it: the value of `error.response.data` when `error`, `error.response`
and `error.response.data` are all truthy, and nothing otherwise. -/
def nestedProviderPayload (error : Val) : Option Val :=
  if !truthy error then none
  else
    let r := propOf error "response"
    if !truthy r then none
    else
      let d := propOf r "data"
      if truthy d then some d else none

/-- The Error Translator as the amended claim C6 words it: when a nested
provider payload is found, surface its `error` code, its `error_description`
or the string form of the whole error, and the stage tag; otherwise surface
the error itself and the stage tag. Stated from the amended claim, to be
compared with `handleError`. -/
def handleErrorAmendedSpec (error : Val) (ty : String) : Val :=
  match nestedProviderPayload error with
  | some data =>
      .vobj [("error", propOf data "error"),
             ("message",
               if truthy (propOf data "error_description") then propOf data "error_description"
               else .vstr (jsToStringT error)),
             ("type", .vstr ty)]
  | none => .vobj [("error", error), ("type", .vstr ty)]

/-- The user record the concrete test store resolves. -/
def user0 : Val := .vobj [("email", .vstr "bob@x.com"), ("customer_id", .vstr "C1")]

/-- A concrete store: resolves exactly the key `"bob@x.com"` (any credential)
to `user0`, rejects every other key. -/
def getUser0 : Val → Val → Except Val Val := fun k _password =>
  match k with
  | .vstr s => if s = "bob@x.com" then .ok user0 else .error (.vstr "user not found")
  | _ => .error (.vstr "user not found")

/-- A concrete provider response carrying an id token. -/
def providerResponse0 : Val := .vobj [("data", .vobj [("id_token", .vstr "IDTOKEN")])]

/-- A concrete environment: the store resolves `bob@x.com`, the providers
exchange successfully, the id token decodes to claims for `bob@x.com`, and
the clock reads 1000. -/
def env0 : Env :=
  { getUser := getUser0
    http := fun _url _body => .ok providerResponse0
    decode := fun _v => .vobj [("email", .vstr "bob@x.com"), ("upn", .vstr "bob@x.com")]
    googleSecret := "gsec"
    azureClientId := "azid"
    azureClientSecret := "azsec"
    jwtSecret := "jwtsec"
    now := 1000 }

/-- `env0` observed at a later instant. -/
def env1 : Env := { env0 with now := 2000 }

/-- A concrete axios-style rejection carrying a provider error payload. -/
def axiosErr0 : Val :=
  .vobj [("response", .vobj [("data",
    .vobj [("error", .vstr "invalid_grant"), ("error_description", .vstr "bad code")])])]

/-- `env0` with providers that reject every code exchange. -/
def envHttpFail : Env := { env0 with http := fun _ _ => .error axiosErr0 }

/-- `env0` with a store that rejects every lookup. -/
def envStoreFail : Env := { env0 with getUser := fun _ _ => .error (.vstr "store outage") }

/-- A concrete recheck request: a verified payload for `bob@x.com` and a
prior session token `"PRIORTOKEN"` in the headers. -/
def recheckRequest0 : Val :=
  .vobj [("jwtPayload", .vobj [("data",
            .vobj [("uEmail", .vstr "bob@x.com"), ("cId", .vstr "C7")])]),
         ("normalizedHeaders", .vobj [("jwt", .vstr "PRIORTOKEN")])]

/-- A concrete password-login request for `bob@x.com`. -/
def loginRequest0 : Val :=
  .vobj [("body", .vobj [("username", .vstr "Bob@X.com"), ("password", .vstr "p1")]),
         ("normalizedHeaders", .vobj [("jwt", .undefined)])]

/-- A concrete OAuth callback request. -/
def oauthRequest0 : Val :=
  .vobj [("body", .vobj [("code", .vstr "CODE1"), ("redirect_url", .vstr "https://r.example/cb")])]

/-- Whether a value tolerates property access (everything except
`undefined` and `null`). -/
def notNullish : Val → Bool
  | .undefined => false
  | .vnull => false
  | _ => true

/-- The first failing field check of the password path with its message,
following the checks of lines 12-18 in source order; `none` when validation
passes, or when the `request.body` access itself throws (request `null`). -/
def authChallengeBadParam (request : Val) : Option String :=
  if jsTypeof request = "undefined" then some "request must be defined"
  else
    match getProp request "body" with
    | .error _ => none
    | .ok body =>
      if jsTypeof body != "object" || !truthy body then some "jsonBody required"
      else if jsTypeof (propOf body "username") = "undefined" then some "username required"
      else if jsTypeof (propOf body "username") != "string" then some "username must be a string"
      else if jsTypeof (propOf body "password") = "undefined" then some "password required"
      else if jsTypeof (propOf body "password") != "string" then some "password must be a string"
      else none

/-- The first failing field check of an OAuth path with its message,
following the checks of lines 48-50 / 85-87 in source order; `none` when
validation passes, or when an access itself throws (missing body). -/
def oauthBadParam (request : Val) : Option String :=
  if jsTypeof request = "undefined" then some "request must be defined"
  else
    match getProp request "body" with
    | .error _ => none
    | .ok body =>
      match getProp body "code" with
      | .error _ => none
      | .ok code =>
        if jsTypeof code != "string" then some "code must be a string"
        else
          match getProp body "redirect_url" with
          | .error _ => none
          | .ok redirectUrl =>
            if jsTypeof redirectUrl != "string" then some "redirect_url must be a string"
            else none

/-- A value whose `response.data` key path is present but holds a falsy
value (the empty string). -/
def presentButFalsyErr : Val := .vobj [("response", .vobj [("data", .vstr "")])]

/-- Property access on an object literal, folded form. -/
theorem getProp_vobj (fs : List (String × Val)) (k : String) :
    getProp (Val.vobj fs) k = .ok ((fs.lookup k).getD .undefined) := rfl

/-- Safe property read on an object literal, folded form. -/
theorem propOf_vobj (fs : List (String × Val)) (k : String) :
    propOf (Val.vobj fs) k = (fs.lookup k).getD .undefined := rfl

/-- C1: on the recheck path with a store-resolvable identity, the returned
token is NOT the prior token: at a concrete recheck request carrying the
prior token `"PRIORTOKEN"`, the resolver signs a fresh token (the option
key is `jwt` while `authenticateUser` destructures `previousJwt`, which no
caller sets, so the reuse branch is unreachable). -/
theorem jwtCheck_reissues_despite_prior_token :
    resultJwt (jwtCheck env0 recheckRequest0)
      = Val.vtoken
          (.vobj [("data", .vobj [("cId", .vstr "C7"), ("uEmail", .vstr "bob@x.com"),
                                  ("u_cId", .vstr "C1")])])
          "jwtsec" JWT_VALID_SECONDS 1000
    ∧ resultJwt (jwtCheck env0 recheckRequest0) ≠ .vstr "PRIORTOKEN" := by
  refine ⟨rfl, fun h => ?_⟩
  exact Val.noConfusion h

/-- C8: two recheck calls with the same prior token and the same resolvable
identity, observed at instants 1000 and 2000, return different tokens: the
resolver re-signs on every call (prior-token reuse is unreachable), so the
issued-at and expiry of the two results differ. -/
theorem jwtCheck_second_call_returns_different_token :
    tokenExpiry (resultJwt (jwtCheck env0 recheckRequest0)) = some 1210600 ∧
    tokenExpiry (resultJwt (jwtCheck env1 recheckRequest0)) = some 1211600 ∧
    resultJwt (jwtCheck env0 recheckRequest0) ≠ resultJwt (jwtCheck env1 recheckRequest0) := by
  refine ⟨rfl, rfl, fun h => ?_⟩
  have h2 : (some 1210600 : Option Int) = some 1211600 := by
    calc (some 1210600 : Option Int)
        = tokenExpiry (resultJwt (jwtCheck env0 recheckRequest0)) := rfl
      _ = tokenExpiry (resultJwt (jwtCheck env1 recheckRequest0)) := by rw [h]
      _ = some 1211600 := rfl
  exact absurd h2 (by decide)

/-- C3 counterexample: the recheck entry point, given a defined request whose
required verified-token payload is missing, does not return a bad-parameter
ReportableError: it propagates a TypeError (and makes no external call). -/
theorem jwtCheck_missing_payload_throws :
    jwtCheck env0 (Val.vobj [])
      = (.error (typeError "Cannot read properties of undefined (reading data)"), []) := rfl

/-- C4 counterexample: the recheck entry point called on the undefined
request propagates a TypeError instead of returning an AuthResult or a
ReportableError. -/
theorem jwtCheck_undefined_request_propagates :
    (jwtCheck env0 Val.undefined).1
      = .error (typeError "Cannot read properties of undefined (reading jwtPayload)") := rfl

/-- C6 counterexample: an error whose `response.data` key path is present but
holds a falsy value takes the generic branch of the Error Translator, while
the claim (branching on presence) prescribes the payload-shaped envelope;
the two envelopes differ. -/
theorem handleError_present_falsy_payload_counterexample :
    hasOwnKey (propOf presentButFalsyErr "response") "data" = true ∧
    handleError presentButFalsyErr "googleOauthResponse"
      = Val.vobj [("error", presentButFalsyErr), ("type", .vstr "googleOauthResponse")] ∧
    handleErrorClaimed presentButFalsyErr "googleOauthResponse"
      = Val.vobj [("error", Val.undefined), ("message", .vstr "[object Object]"),
                  ("type", .vstr "googleOauthResponse")] ∧
    handleError presentButFalsyErr "googleOauthResponse"
      ≠ handleErrorClaimed presentButFalsyErr "googleOauthResponse" := by
  refine ⟨rfl, rfl, rfl, fun h => ?_⟩
  have hm : hasOwnKey (handleError presentButFalsyErr "googleOauthResponse") "message" = true := by
    rw [h]; rfl
  exact Bool.noConfusion hm

/-- C6 amended: the Error Translator returns the payload-shaped envelope
exactly when `error`, `error.response` and `error.response.data` are all
TRUTHY (not merely present), and the generic envelope otherwise; stated as
agreement with a definition written from the amended claim. -/
theorem handleError_matches_truthiness_spec (error : Val) (ty : String) :
    handleError error ty = handleErrorAmendedSpec error ty := by
  unfold handleError handleErrorAmendedSpec nestedProviderPayload
  by_cases h1 : truthy error
  · by_cases h2 : truthy (propOf error "response")
    · by_cases h3 : truthy (propOf (propOf error "response") "data") <;>
        simp [h1, h2, h3, cond]
    · simp [h1, h2]
  · simp [h1]

/-- C2: on the password path, for every environment and every
username/password the store accepts (resolving to a user record object), the
result is a freshly minted token signed over
`data = (cId: undefined, uEmail: user.email, u_cId: user.customer_id)` with
the process secret, issued now, with an expiry window of
`JWT_VALID_SECONDS = 1209600` seconds (14 days). -/
theorem authChallenge_mints_fresh_fourteen_day_token
    (env : Env) (username password : String) (headerJwt : Val) (ufs : List (String × Val))
    (hstore : env.getUser (Val.vstr (lowerStr username)) (Val.vstr password)
        = .ok (Val.vobj ufs)) :
    (authChallenge env
        (Val.vobj [("body", Val.vobj [("username", Val.vstr username),
                                      ("password", Val.vstr password)]),
                   ("normalizedHeaders", Val.vobj [("jwt", headerJwt)])])).1
      = .ok (Val.vobj
          [("jwt", Val.vtoken
              (Val.vobj [("data", Val.vobj
                [("cId", Val.undefined),
                 ("uEmail", propOf (Val.vobj ufs) "email"),
                 ("u_cId", propOf (Val.vobj ufs) "customer_id")])])
              env.jwtSecret JWT_VALID_SECONDS env.now),
           ("serial", Val.undefined), ("user", Val.vobj ufs), ("redirectUrl", Val.undefined)])
    ∧ JWT_VALID_SECONDS = 1209600 := by
  constructor
  · simp [authChallenge, authenticateUser, jsTypeof, getProp, propOf, jsToLowerCase,
      truthy, List.lookup, hstore]
  · decide

/-- C2 witness: the concrete login of `Bob@X.com` against the concrete store
yields exactly the fresh 14-day token over the resolved user record. -/
theorem authChallenge_mints_fresh_token_witness :
    env0.getUser (Val.vstr (lowerStr "Bob@X.com")) (Val.vstr "p1")
      = .ok (Val.vobj [("email", Val.vstr "bob@x.com"), ("customer_id", Val.vstr "C1")]) ∧
    ((authChallenge env0 loginRequest0).1
      = .ok (Val.vobj
          [("jwt", Val.vtoken
              (Val.vobj [("data", Val.vobj
                [("cId", Val.undefined),
                 ("uEmail", Val.vstr "bob@x.com"),
                 ("u_cId", Val.vstr "C1")])])
              "jwtsec" JWT_VALID_SECONDS 1000),
           ("serial", Val.undefined),
           ("user", Val.vobj [("email", Val.vstr "bob@x.com"), ("customer_id", Val.vstr "C1")]),
           ("redirectUrl", Val.undefined)])
      ∧ JWT_VALID_SECONDS = 1209600) :=
  ⟨rfl, authChallenge_mints_fresh_fourteen_day_token env0 "Bob@X.com" "p1" Val.undefined
    [("email", Val.vstr "bob@x.com"), ("customer_id", Val.vstr "C1")] rfl⟩

/-- C5: on each OAuth path with a well-formed request, a failing code
exchange yields the provider-tagged error envelope (`googleOauthResponse` /
`azureOauthResponse`) with the user store never queried, and a store lookup
failure after a successful exchange yields the envelope tagged
`authenticateUser`. -/
theorem oauth_error_stages (env : Env) (code ru : String) :
    (∀ e, env.http googleTokenUrl (googleParams env (Val.vstr ru) (Val.vstr code)) = .error e →
      googleOauthCallback env
          (Val.vobj [("body", Val.vobj [("code", Val.vstr code), ("redirect_url", Val.vstr ru)])])
        = (.ok (handleError e "googleOauthResponse"),
           [.httpPost googleTokenUrl (googleParams env (Val.vstr ru) (Val.vstr code))]) ∧
      storeQueryKeys (googleOauthCallback env
          (Val.vobj [("body", Val.vobj [("code", Val.vstr code),
                                        ("redirect_url", Val.vstr ru)])])).2 = []) ∧
    (∀ e, env.http azureTokenUrl (azureParams env (Val.vstr ru) (Val.vstr code)) = .error e →
      azureOauthCallback env
          (Val.vobj [("body", Val.vobj [("code", Val.vstr code), ("redirect_url", Val.vstr ru)])])
        = (.ok (handleError e "azureOauthResponse"),
           [.httpPost azureTokenUrl (azureParams env (Val.vstr ru) (Val.vstr code))]) ∧
      storeQueryKeys (azureOauthCallback env
          (Val.vobj [("body", Val.vobj [("code", Val.vstr code),
                                        ("redirect_url", Val.vstr ru)])])).2 = []) ∧
    (∀ resp d idt em se,
      env.http googleTokenUrl (googleParams env (Val.vstr ru) (Val.vstr code)) = .ok resp →
      getProp resp "data" = .ok d → getProp d "id_token" = .ok idt →
      getProp (env.decode idt) "email" = .ok (Val.vstr em) →
      env.getUser (Val.vstr (lowerStr em)) Val.undefined = .error se →
      (googleOauthCallback env
          (Val.vobj [("body", Val.vobj [("code", Val.vstr code),
                                        ("redirect_url", Val.vstr ru)])])).1
        = .ok (handleError se "authenticateUser")) ∧
    (∀ resp d idt em se,
      env.http azureTokenUrl (azureParams env (Val.vstr ru) (Val.vstr code)) = .ok resp →
      getProp resp "data" = .ok d → getProp d "id_token" = .ok idt →
      getProp (env.decode idt) "upn" = .ok (Val.vstr em) →
      env.getUser (Val.vstr (lowerStr em)) Val.undefined = .error se →
      (azureOauthCallback env
          (Val.vobj [("body", Val.vobj [("code", Val.vstr code),
                                        ("redirect_url", Val.vstr ru)])])).1
        = .ok (handleError se "authenticateUser")) := by
  refine ⟨fun e he => ?_, fun e he => ?_, fun resp d idt em se h1 h2 h3 h4 h5 => ?_,
    fun resp d idt em se h1 h2 h3 h4 h5 => ?_⟩
  · constructor <;>
      simp [googleOauthCallback, jsTypeof, getProp_vobj, propOf, List.lookup, he, storeQueryKeys]
  · constructor <;>
      simp [azureOauthCallback, jsTypeof, getProp_vobj, propOf, List.lookup, he, storeQueryKeys]
  · simp [googleOauthCallback, authenticateUser, jsTypeof, getProp_vobj, propOf, List.lookup,
      jsToLowerCase, truthy, h1, h2, h3, h4, h5]
  · simp [azureOauthCallback, authenticateUser, jsTypeof, getProp_vobj, propOf, List.lookup,
      jsToLowerCase, truthy, h1, h2, h3, h4, h5]

/-- C5 witness: the concrete failing Google exchange is tagged
`googleOauthResponse` with no store query, and the concrete Azure store
outage after a successful exchange is tagged `authenticateUser`. -/
theorem oauth_error_stages_witness :
    googleOauthCallback envHttpFail oauthRequest0
      = (.ok (handleError axiosErr0 "googleOauthResponse"),
         [.httpPost googleTokenUrl
            (googleParams envHttpFail (Val.vstr "https://r.example/cb") (Val.vstr "CODE1"))]) ∧
    (azureOauthCallback envStoreFail oauthRequest0).1
      = .ok (handleError (.vstr "store outage") "authenticateUser") :=
  ⟨((oauth_error_stages envHttpFail "CODE1" "https://r.example/cb").1 axiosErr0 rfl).1,
   (oauth_error_stages envStoreFail "CODE1" "https://r.example/cb").2.2.2
     providerResponse0 (Val.vobj [("id_token", Val.vstr "IDTOKEN")]) (Val.vstr "IDTOKEN")
     "bob@x.com" (.vstr "store outage") rfl rfl rfl rfl rfl⟩

/-- Every run of the Session Resolver performs either no external call or
exactly one user-store read. -/
theorem authenticateUser_trace_shape (env : Env) (opts : Val) :
    (authenticateUser env opts).2 = [] ∨
    ∃ k p, (authenticateUser env opts).2 = [ExtCall.getUserCall k p] := by
  unfold authenticateUser
  cases opts <;> simp
  all_goals (repeat' split) <;> simp

/-- C9: the Session Resolver never mutates the user store: every external
call it makes is a `getUser` read, and replaying its trace over any store
state leaves the state unchanged, whether the run succeeded or failed. -/
theorem authenticateUser_store_readonly (env : Env) (options : Val) (s : StoreState) :
    (authenticateUser env options).2.all isGetUserCall = true ∧
    runStoreCalls s (authenticateUser env options).2 = s := by
  rcases authenticateUser_trace_shape env options with h | ⟨k, p, h⟩ <;>
    simp [h, runStoreCalls, applyCall, isGetUserCall]

/-- A run of the Session Resolver on options carrying a string `userEmail`
queries the store exactly once, with the lowercased email as the key. -/
theorem authenticateUser_trace (env : Env) (u : String) (fs : List (String × Val)) :
    (authenticateUser env (Val.vobj (("userEmail", Val.vstr u) :: fs))).2
      = [ExtCall.getUserCall (Val.vstr (lowerStr u))
          ((fs.lookup "password").getD .undefined)] := by
  unfold authenticateUser
  simp [propOf_vobj, List.lookup, jsToLowerCase]
  repeat' split <;> (try simp)

/-- C7: two usernames that differ only in letter case produce the same
user-store lookup key on every resolver run: `userEmail` is lowercased
before use as the lookup key. -/
theorem store_lookup_key_case_insensitive (env : Env) (u1 u2 : String)
    (fs : List (String × Val)) (h : caseEquiv u1 u2) :
    storeQueryKeys (authenticateUser env (Val.vobj (("userEmail", Val.vstr u1) :: fs))).2
      = storeQueryKeys (authenticateUser env (Val.vobj (("userEmail", Val.vstr u2) :: fs))).2 := by
  have hl : lowerStr u1 = lowerStr u2 := congrArg String.mk h
  rw [authenticateUser_trace, authenticateUser_trace, hl]

/-- C7 witness: `Alice@Example.com` and `alice@example.com` query the store
with the same key. -/
theorem store_lookup_key_case_insensitive_witness :
    caseEquiv "Alice@Example.com" "alice@example.com" ∧
    storeQueryKeys
        (authenticateUser env0 (Val.vobj [("userEmail", Val.vstr "Alice@Example.com")])).2
      = storeQueryKeys
        (authenticateUser env0 (Val.vobj [("userEmail", Val.vstr "alice@example.com")])).2 :=
  ⟨by decide, store_lookup_key_case_insensitive env0 "Alice@Example.com" "alice@example.com" []
    (by decide)⟩

/-- C3 amended: on the password path, a request whose validation detects a
missing or wrong-typed required field yields the bad-parameter envelope
naming the first offending field, with no external call; the same holds on
both OAuth paths whenever the field accesses themselves do not throw; the
recheck path performs no validation of its own — a failing payload access
propagates the exception (with no external call). -/
theorem bad_params_first_offending_field (env : Env) (r : Val) (m : String) :
    (authChallengeBadParam r = some m →
      authChallenge env r = (.ok (handleError (.vstr m) "bad params"), [])) ∧
    (oauthBadParam r = some m →
      googleOauthCallback env r = (.ok (handleError (.vstr m) "bad params"), []) ∧
      azureOauthCallback env r = (.ok (handleError (.vstr m) "bad params"), [])) ∧
    (∀ e, jwtCheckOptions r = .error e → jwtCheck env r = (.error e, [])) := by
  refine ⟨fun h => ?_, fun h => ?_, fun e he => ?_⟩
  · unfold authChallengeBadParam at h
    unfold authChallenge
    (repeat' split at h) <;> simp_all
  · unfold oauthBadParam at h
    unfold googleOauthCallback azureOauthCallback
    (repeat' split at h) <;> simp_all
  · simp [jwtCheck, he]

/-- C3 witness: a numeric `username` on the password path, a missing
`redirect_url` on both OAuth paths, and a recheck request with a payload
missing `uEmail`, evaluated concretely. -/
theorem bad_params_first_offending_field_witness :
    authChallengeBadParam (Val.vobj [("body", Val.vobj [("username", Val.vnum 3)])])
      = some "username must be a string" ∧
    authChallenge env0 (Val.vobj [("body", Val.vobj [("username", Val.vnum 3)])])
      = (.ok (handleError (.vstr "username must be a string") "bad params"), []) ∧
    oauthBadParam (Val.vobj [("body", Val.vobj [("code", Val.vstr "x")])])
      = some "redirect_url must be a string" ∧
    googleOauthCallback env0 (Val.vobj [("body", Val.vobj [("code", Val.vstr "x")])])
      = (.ok (handleError (.vstr "redirect_url must be a string") "bad params"), []) ∧
    azureOauthCallback env0 (Val.vobj [("body", Val.vobj [("code", Val.vstr "x")])])
      = (.ok (handleError (.vstr "redirect_url must be a string") "bad params"), []) ∧
    jwtCheck env0 (Val.vobj [("jwtPayload", Val.vobj [])])
      = (.error (typeError "Cannot read properties of undefined (reading uEmail)"), []) :=
  ⟨rfl,
   (bad_params_first_offending_field env0
      (Val.vobj [("body", Val.vobj [("username", Val.vnum 3)])])
      "username must be a string").1 rfl,
   rfl,
   ((bad_params_first_offending_field env0
      (Val.vobj [("body", Val.vobj [("code", Val.vstr "x")])])
      "redirect_url must be a string").2.1 rfl).1,
   ((bad_params_first_offending_field env0
      (Val.vobj [("body", Val.vobj [("code", Val.vstr "x")])])
      "redirect_url must be a string").2.1 rfl).2,
   (bad_params_first_offending_field env0 (Val.vobj [("jwtPayload", Val.vobj [])])
      "").2.2 (typeError "Cannot read properties of undefined (reading uEmail)") rfl⟩

/-- `typeof` of an object literal. -/
theorem jsTypeof_vobj (fs : List (String × Val)) : jsTypeof (Val.vobj fs) = "object" := rfl

/-- Property access succeeds on any receiver other than `undefined`/`null`. -/
theorem getProp_notNullish (v : Val) (k : String) (h : notNullish v = true) :
    getProp v k = .ok (propOf v k) := by
  cases v <;> simp_all [notNullish, getProp]

/-- The Session Resolver returns normally on every object options value,
provided the store resolves users to non-nullish records: the lookup (and a
`toLowerCase` failure) is guarded by `try/catch`, and the signing branch
only dereferences the resolved user. -/
theorem authenticateUser_total (env : Env)
    (hstore : ∀ k p u, env.getUser k p = .ok u → notNullish u = true)
    (fs : List (String × Val)) :
    ∃ v, (authenticateUser env (Val.vobj fs)).1 = .ok v := by
  unfold authenticateUser
  cases hlc : jsToLowerCase (propOf (Val.vobj fs) "userEmail") with
  | error e => simp [hlc]
  | ok key =>
    cases hgu : env.getUser key (propOf (Val.vobj fs) "password") with
    | error e => simp [hlc, hgu]
    | ok u =>
      have hn := hstore _ _ _ hgu
      by_cases hp : truthy (propOf (Val.vobj fs) "previousJwt") = true
      · simp [hlc, hgu, hp]
      · simp [hlc, hgu, hp, getProp_notNullish u "email" hn,
          getProp_notNullish u "customer_id" hn]

/-- The Google callback returns normally whenever the request body is
present and the provider response, decoded claims and store records are
non-nullish. -/
theorem googleOauthCallback_total (env : Env)
    (hstore : ∀ k p u, env.getUser k p = .ok u → notNullish u = true)
    (hhttp : ∀ u bd resp, env.http u bd = .ok resp →
      notNullish resp = true ∧ notNullish (propOf resp "data") = true)
    (hdecode : ∀ v, notNullish (env.decode v) = true)
    (b : Val) (hb : notNullish b = true) :
    ∃ v, (googleOauthCallback env (Val.vobj [("body", b)])).1 = .ok v := by
  unfold googleOauthCallback
  simp [jsTypeof_vobj, getProp_vobj, List.lookup, getProp_notNullish b "code" hb,
    getProp_notNullish b "redirect_url" hb]
  by_cases hc : jsTypeof (propOf b "code") = "string"
  · by_cases hr : jsTypeof (propOf b "redirect_url") = "string"
    · simp only [hc, hr, if_true]
      cases hh : env.http googleTokenUrl
          (googleParams env (propOf b "redirect_url") (propOf b "code")) with
      | error e => simp [hh]
      | ok resp =>
        obtain ⟨h1, h2⟩ := hhttp _ _ _ hh
        simp [hh, getProp_notNullish resp "data" h1,
          getProp_notNullish (propOf resp "data") "id_token" h2,
          getProp_notNullish (env.decode (propOf (propOf resp "data") "id_token")) "email"
            (hdecode _)]
        exact authenticateUser_total env hstore _
    · simp [hc, hr]
  · simp [hc]

/-- The Azure callback returns normally under the same conditions. -/
theorem azureOauthCallback_total (env : Env)
    (hstore : ∀ k p u, env.getUser k p = .ok u → notNullish u = true)
    (hhttp : ∀ u bd resp, env.http u bd = .ok resp →
      notNullish resp = true ∧ notNullish (propOf resp "data") = true)
    (hdecode : ∀ v, notNullish (env.decode v) = true)
    (b : Val) (hb : notNullish b = true) :
    ∃ v, (azureOauthCallback env (Val.vobj [("body", b)])).1 = .ok v := by
  unfold azureOauthCallback
  simp [jsTypeof_vobj, getProp_vobj, List.lookup, getProp_notNullish b "code" hb,
    getProp_notNullish b "redirect_url" hb]
  by_cases hc : jsTypeof (propOf b "code") = "string"
  · by_cases hr : jsTypeof (propOf b "redirect_url") = "string"
    · simp only [hc, hr, if_true]
      cases hh : env.http azureTokenUrl
          (azureParams env (propOf b "redirect_url") (propOf b "code")) with
      | error e => simp [hh]
      | ok resp =>
        obtain ⟨h1, h2⟩ := hhttp _ _ _ hh
        simp [hh, getProp_notNullish resp "data" h1,
          getProp_notNullish (propOf resp "data") "id_token" h2,
          getProp_notNullish (env.decode (propOf (propOf resp "data") "id_token")) "upn"
            (hdecode _)]
        exact authenticateUser_total env hstore _
    · simp [hc, hr]
  · simp [hc]

/-- The recheck entry point returns normally whenever the payload, its
`data` and the headers are non-nullish (the `uEmail` claim itself may be
any value: a non-string email fails inside the resolver `try`). -/
theorem jwtCheck_total (env : Env)
    (hstore : ∀ k p u, env.getUser k p = .ok u → notNullish u = true)
    (p nh : Val) (hp : notNullish p = true)
    (hd : notNullish (propOf p "data") = true) (hnh : notNullish nh = true) :
    ∃ v, (jwtCheck env (Val.vobj [("jwtPayload", p), ("normalizedHeaders", nh)])).1 = .ok v := by
  unfold jwtCheck jwtCheckOptions
  simp [getProp_vobj, List.lookup, getProp_notNullish p "data" hp,
    getProp_notNullish (propOf p "data") "uEmail" hd,
    getProp_notNullish (propOf p "data") "cId" hd,
    getProp_notNullish nh "jwt" hnh]
  exact authenticateUser_total env hstore _

/-- The password entry point returns normally on any body value whenever the
headers are non-nullish: every validation failure is a normal return, and a
validated body reaches the total resolver. -/
theorem authChallenge_total (env : Env)
    (hstore : ∀ k p u, env.getUser k p = .ok u → notNullish u = true)
    (b nh : Val) (hnh : notNullish nh = true) :
    ∃ v, (authChallenge env (Val.vobj [("body", b), ("normalizedHeaders", nh)])).1 = .ok v := by
  unfold authChallenge
  simp [jsTypeof_vobj, getProp_vobj, List.lookup, getProp_notNullish nh "jwt" hnh]
  repeat' split
  all_goals first
    | exact ⟨_, rfl⟩
    | exact authenticateUser_total env hstore _

/-- The concrete store of `env0` resolves only to the non-nullish `user0`. -/
theorem env0_store_wellShaped (k p u : Val) (h : env0.getUser k p = .ok u) :
    notNullish u = true := by
  cases k <;> simp [env0, getUser0] at h
  case vstr s =>
    by_cases hs : s = "bob@x.com" <;> simp [hs] at h
    simp [← h, user0, notNullish]

/-- The concrete provider of `env0` always answers with the well-shaped
`providerResponse0`. -/
theorem env0_http_wellShaped (u bd : String) (resp : Val)
    (h : env0.http u bd = .ok resp) :
    notNullish resp = true ∧ notNullish (propOf resp "data") = true := by
  simp [env0] at h
  simp [← h, providerResponse0, notNullish, propOf, List.lookup]

/-- C4 amended: each entry point terminates with a normal return value —
an AuthResult or a ReportableError — on every request whose dereferenced
context fields are present (non-nullish headers; for the recheck path a
non-nullish payload with non-nullish `data`; for the OAuth paths a
non-nullish body), provided the store, the provider responses and the
decoded claims are non-nullish; outside these conditions a property access
on `undefined`/`null` propagates a TypeError (see the counterexample). -/
theorem entry_points_return_normally (env : Env)
    (hstore : ∀ k p u, env.getUser k p = .ok u → notNullish u = true)
    (hhttp : ∀ u bd resp, env.http u bd = .ok resp →
      notNullish resp = true ∧ notNullish (propOf resp "data") = true)
    (hdecode : ∀ v, notNullish (env.decode v) = true) :
    (∀ b nh, notNullish nh = true →
      ∃ v, (authChallenge env (Val.vobj [("body", b), ("normalizedHeaders", nh)])).1 = .ok v) ∧
    (∀ p nh, notNullish p = true → notNullish (propOf p "data") = true → notNullish nh = true →
      ∃ v, (jwtCheck env (Val.vobj [("jwtPayload", p), ("normalizedHeaders", nh)])).1 = .ok v) ∧
    (∀ b, notNullish b = true →
      (∃ v, (googleOauthCallback env (Val.vobj [("body", b)])).1 = .ok v) ∧
      (∃ v, (azureOauthCallback env (Val.vobj [("body", b)])).1 = .ok v)) :=
  ⟨fun b nh hnh => authChallenge_total env hstore b nh hnh,
   fun p nh hp hd hnh => jwtCheck_total env hstore p nh hp hd hnh,
   fun b hb => ⟨googleOauthCallback_total env hstore hhttp hdecode b hb,
                azureOauthCallback_total env hstore hhttp hdecode b hb⟩⟩

/-- C4 witness: the concrete recheck, Google-callback and (undefined-body)
password requests all return normally against `env0`. -/
theorem entry_points_return_normally_witness :
    (∃ v, (jwtCheck env0 recheckRequest0).1 = .ok v) ∧
    (∃ v, (googleOauthCallback env0 oauthRequest0).1 = .ok v) ∧
    (∃ v, (authChallenge env0
      (Val.vobj [("body", Val.undefined), ("normalizedHeaders", Val.vobj [])])).1 = .ok v) :=
  ⟨(entry_points_return_normally env0 env0_store_wellShaped env0_http_wellShaped
      (fun _v => rfl)).2.1
      (Val.vobj [("data", Val.vobj [("uEmail", Val.vstr "bob@x.com"), ("cId", Val.vstr "C7")])])
      (Val.vobj [("jwt", Val.vstr "PRIORTOKEN")]) rfl rfl rfl,
   ((entry_points_return_normally env0 env0_store_wellShaped env0_http_wellShaped
      (fun _v => rfl)).2.2
      (Val.vobj [("code", Val.vstr "CODE1"), ("redirect_url", Val.vstr "https://r.example/cb")])
      rfl).1,
   (entry_points_return_normally env0 env0_store_wellShaped env0_http_wellShaped
      (fun _v => rfl)).1 Val.undefined (Val.vobj []) rfl⟩

/-- Every envelope the Error Translator returns carries the stage tag in its
`type` field. -/
theorem handleError_type_field (e : Val) (t : String) :
    propOf (handleError e t) "type" = .vstr t := by
  unfold handleError
  split <;> simp [propOf, List.lookup]

/-- Any normally returned resolver value without a `type` field (i.e. not an
error envelope) carries exactly the `redirectUrl` of its options. -/
theorem authenticateUser_redirectUrl (env : Env) (opts : Val) (v : Val)
    (h : (authenticateUser env opts).1 = .ok v) (ht : propOf v "type" = .undefined) :
    propOf v "redirectUrl" = propOf opts "redirectUrl" := by
  unfold authenticateUser at h
  split at h
  · simp at h
  · simp at h
  · cases hlc : jsToLowerCase (propOf opts "userEmail") with
    | error e =>
      simp only [hlc] at h
      simp at h
      subst h
      rw [handleError_type_field] at ht
      exact Val.noConfusion ht
    | ok key =>
      simp only [hlc] at h
      cases hgu : env.getUser key (propOf opts "password") with
      | error e =>
        simp only [hgu] at h
        simp at h
        subst h
        rw [handleError_type_field] at ht
        exact Val.noConfusion ht
      | ok user =>
        simp only [hgu] at h
        by_cases hp : truthy (propOf opts "previousJwt") = true
        · simp [hp] at h
          subst h
          simp [propOf, List.lookup]
        · simp [hp] at h
          cases hue : getProp user "email" with
          | error e => simp [hue] at h
          | ok uEmail =>
            simp only [hue] at h
            cases huc : getProp user "customer_id" with
            | error e => simp [huc] at h
            | ok uCid =>
              simp [huc] at h
              subst h
              simp [propOf, List.lookup]

/-- Every password-path outcome is an error envelope, a propagated
exception, or a delegation to the resolver on options with no
`redirectUrl` key. -/
theorem authChallenge_shape (env : Env) (r : Val) :
    (∃ e t, (authChallenge env r).1 = .ok (handleError e t)) ∨
    (∃ e, (authChallenge env r).1 = .error e) ∨
    (∃ fs, List.lookup "redirectUrl" fs = none ∧
      (authChallenge env r).1 = (authenticateUser env (Val.vobj fs)).1) := by
  unfold authChallenge
  repeat' split
  all_goals first
    | (left; exact ⟨_, _, rfl⟩)
    | (right; left; exact ⟨_, rfl⟩)
    | (right; right; refine ⟨_, ?_, rfl⟩; rfl)

/-- A successfully built recheck options object has exactly the keys
`userEmail`, `customerId`, `jwt`. -/
theorem jwtCheckOptions_shape (r o : Val) (h : jwtCheckOptions r = .ok o) :
    ∃ a b c, o = Val.vobj [("userEmail", a), ("customerId", b), ("jwt", c)] := by
  unfold jwtCheckOptions at h
  repeat' split at h
  all_goals try simp at h
  exact ⟨_, _, _, h.symm⟩

/-- Every recheck-path outcome is a propagated exception or a delegation to
the resolver on options with no `redirectUrl` key. -/
theorem jwtCheck_shape (env : Env) (r : Val) :
    (∃ e, (jwtCheck env r).1 = .error e) ∨
    (∃ fs, List.lookup "redirectUrl" fs = none ∧
      (jwtCheck env r).1 = (authenticateUser env (Val.vobj fs)).1) := by
  cases hjo : jwtCheckOptions r with
  | error e =>
    left
    exact ⟨e, by simp [jwtCheck, hjo]⟩
  | ok o =>
    obtain ⟨a, b, c, rfl⟩ := jwtCheckOptions_shape r o hjo
    right
    exact ⟨[("userEmail", a), ("customerId", b), ("jwt", c)], rfl, by simp [jwtCheck, hjo]⟩

/-- Every Google-path outcome is an error envelope, a propagated exception,
or a delegation to the resolver on options with no `redirectUrl` key. -/
theorem googleOauthCallback_shape (env : Env) (r : Val) :
    (∃ e t, (googleOauthCallback env r).1 = .ok (handleError e t)) ∨
    (∃ e, (googleOauthCallback env r).1 = .error e) ∨
    (∃ fs, List.lookup "redirectUrl" fs = none ∧
      (googleOauthCallback env r).1 = (authenticateUser env (Val.vobj fs)).1) := by
  unfold googleOauthCallback
  repeat' split
  all_goals first
    | (left; exact ⟨_, _, rfl⟩)
    | (right; left; exact ⟨_, rfl⟩)
    | (right; right; refine ⟨_, ?_, rfl⟩; rfl)

/-- Every Azure-path outcome is an error envelope, a propagated exception,
or a delegation to the resolver on options with no `redirectUrl` key. -/
theorem azureOauthCallback_shape (env : Env) (r : Val) :
    (∃ e t, (azureOauthCallback env r).1 = .ok (handleError e t)) ∨
    (∃ e, (azureOauthCallback env r).1 = .error e) ∨
    (∃ fs, List.lookup "redirectUrl" fs = none ∧
      (azureOauthCallback env r).1 = (authenticateUser env (Val.vobj fs)).1) := by
  unfold azureOauthCallback
  repeat' split
  all_goals first
    | (left; exact ⟨_, _, rfl⟩)
    | (right; left; exact ⟨_, rfl⟩)
    | (right; right; refine ⟨_, ?_, rfl⟩; rfl)

/-- C10: every successful AuthResult (a normally returned value that is not
an error envelope: no `type` field) produced by any of the four entry points
has an undefined `redirectUrl`: no entry point puts a `redirectUrl` in its
options, and the resolver copies only that absent field into the response. -/
theorem success_redirectUrl_undefined (env : Env) (r v : Val) :
    ((authChallenge env r).1 = .ok v → propOf v "type" = .undefined →
      propOf v "redirectUrl" = .undefined) ∧
    ((jwtCheck env r).1 = .ok v → propOf v "type" = .undefined →
      propOf v "redirectUrl" = .undefined) ∧
    ((googleOauthCallback env r).1 = .ok v → propOf v "type" = .undefined →
      propOf v "redirectUrl" = .undefined) ∧
    ((azureOauthCallback env r).1 = .ok v → propOf v "type" = .undefined →
      propOf v "redirectUrl" = .undefined) := by
  refine ⟨fun h ht => ?_, fun h ht => ?_, fun h ht => ?_, fun h ht => ?_⟩
  · rcases authChallenge_shape env r with ⟨e, t, hs⟩ | ⟨e, hs⟩ | ⟨fs, hnone, hs⟩
    · rw [hs] at h; simp at h; subst h
      rw [handleError_type_field] at ht; exact Val.noConfusion ht
    · rw [hs] at h; simp at h
    · rw [hs] at h
      rw [authenticateUser_redirectUrl env _ v h ht]
      simp [propOf, hnone]
  · rcases jwtCheck_shape env r with ⟨e, hs⟩ | ⟨fs, hnone, hs⟩
    · rw [hs] at h; simp at h
    · rw [hs] at h
      rw [authenticateUser_redirectUrl env _ v h ht]
      simp [propOf, hnone]
  · rcases googleOauthCallback_shape env r with ⟨e, t, hs⟩ | ⟨e, hs⟩ | ⟨fs, hnone, hs⟩
    · rw [hs] at h; simp at h; subst h
      rw [handleError_type_field] at ht; exact Val.noConfusion ht
    · rw [hs] at h; simp at h
    · rw [hs] at h
      rw [authenticateUser_redirectUrl env _ v h ht]
      simp [propOf, hnone]
  · rcases azureOauthCallback_shape env r with ⟨e, t, hs⟩ | ⟨e, hs⟩ | ⟨fs, hnone, hs⟩
    · rw [hs] at h; simp at h; subst h
      rw [handleError_type_field] at ht; exact Val.noConfusion ht
    · rw [hs] at h; simp at h
    · rw [hs] at h
      rw [authenticateUser_redirectUrl env _ v h ht]
      simp [propOf, hnone]

/-- C10 witness: the concrete successful password login against `env0` has
an undefined `redirectUrl`. -/
theorem success_redirectUrl_undefined_witness :
    propOf (Val.vobj
      [("jwt", Val.vtoken
          (Val.vobj [("data", Val.vobj
            [("cId", Val.undefined), ("uEmail", Val.vstr "bob@x.com"), ("u_cId", Val.vstr "C1")])])
          "jwtsec" JWT_VALID_SECONDS 1000),
       ("serial", Val.undefined),
       ("user", Val.vobj [("email", Val.vstr "bob@x.com"), ("customer_id", Val.vstr "C1")]),
       ("redirectUrl", Val.undefined)]) "redirectUrl" = Val.undefined :=
  (success_redirectUrl_undefined env0 loginRequest0
    (Val.vobj
      [("jwt", Val.vtoken
          (Val.vobj [("data", Val.vobj
            [("cId", Val.undefined), ("uEmail", Val.vstr "bob@x.com"), ("u_cId", Val.vstr "C1")])])
          "jwtsec" JWT_VALID_SECONDS 1000),
       ("serial", Val.undefined),
       ("user", Val.vobj [("email", Val.vstr "bob@x.com"), ("customer_id", Val.vstr "C1")]),
       ("redirectUrl", Val.undefined)])).1 rfl rfl

end NodeApiAuth
